import Mathlib

/-!
Verification of the WaterSurface repository (GVF backwater profiles upstream
of a weir).  The Python sources are three Jupyter notebooks:

* `src/unnamed/part_000`, first document ("GVF Backwater Profile for a
  Trapezoidal Channel"): trapezoidal geometry, forward marching
  `compute_gvf_profile`.
* `src/unnamed/part_000`, second document ("Smooth Backwater Profile"):
  rectangular fast path, backward marching `compute_gvf_backwater` plus
  `compute_normal_depth`.
* `src/weir_flow_interactive.ipynb`: rectangular fast path, forward marching
  loop inside `plot_profile` (no depth check), closed-form
  `compute_critical_depth`, unguarded `compute_normal_depth`.
* `src/weir_gvf_corrected_upstream.ipynb`: rectangular fast path, forward
  marching `compute_backwater_from_weir` with a clamped denominator.

Python floats are modelled by `ℝ`; `np.sqrt` by `Real.sqrt`; the float power
`**` with fractional exponent by `Real.rpow`.  `np.isnan` has no counterpart
in `ℝ`, so the source test `y <= 0 or np.isnan(y)` is modelled by `y ≤ 0`
(every claim below concerns the `y ≤ 0` part or control flow that is
independent of the NaN test).  A Python `while` loop is embedded as a
fuel-indexed recursion; the wrapper definitions supply enough fuel that, for
`dx > 0`, adding more fuel does not change the result (proved in the
stabilization lemmas below), so the embedding agrees with the unbounded loop.
Parallel `x_vals` / `y_vals` lists are modelled as one list of `(x, y)` pairs.
-/

namespace WaterSurface

open Classical

/-- Source: `g = 9.81` (all notebooks). -/
noncomputable def g : ℝ := 9.81

/-! ## Trapezoidal geometry (first notebook of `src/unnamed/part_000`) -/

/-- Source: `def area(b, z, y): return b*y + z*y**2`. -/
noncomputable def area (b z y : ℝ) : ℝ := b * y + z * y ^ 2

/-- Source: `def perimeter(b, z, y): return b + 2*y*(1 + z**2)**0.5`. -/
noncomputable def perimeter (b z y : ℝ) : ℝ := b + 2 * y * (1 + z ^ 2) ^ ((1 : ℝ) / 2)

/-- Source: `def top_width(b, z, y): return b + 2*z*y`. -/
noncomputable def top_width (b z y : ℝ) : ℝ := b + 2 * z * y

/-- Source: `def hydraulic_radius(b, z, y): return A / P`. -/
noncomputable def hydraulic_radius (b z y : ℝ) : ℝ := area b z y / perimeter b z y

/-- Source: the residual `func` inside `compute_critical_depth(Q, b, z)`:
`Q**2 * T - g * A**3`. -/
noncomputable def crit_residual (Q b z y : ℝ) : ℝ :=
  Q ^ 2 * top_width b z y - g * area b z y ^ 3

/-- Modelled from the spec: `compute_critical_depth(Q, b, z)` returns
`fsolve(func, 1.0)[0]` where `fsolve` is SciPy's external root finder, which
is not part of this repository.  Spec §4.3 specifies the converged result as
the physically relevant positive root of `Q²·T(y) − g·A(y)³ = 0`; we model
the solver's output as a positive root of `crit_residual` (chosen
classically), defaulting to `1` (the initial guess `1.0`) when none exists.
For `z = 0` the positive root is unique and equals the rectangular closed
form, so the model is fully determined there. -/
noncomputable def compute_critical_depth_trap (Q b z : ℝ) : ℝ :=
  if h : ∃ y : ℝ, 0 < y ∧ crit_residual Q b z y = 0 then h.choose else 1

/-- Source: `def Sf(Q, b, z, y, n): return (n**2 * Q**2) / (A**2 * R**(4/3))`. -/
noncomputable def Sf_trap (Q b z y n : ℝ) : ℝ :=
  n ^ 2 * Q ^ 2 / (area b z y ^ 2 * hydraulic_radius b z y ^ ((4 : ℝ) / 3))

/-- Source: `def Fr(Q, b, z, y): return Q / (A * np.sqrt(g * A / T))`. -/
noncomputable def Fr_trap (Q b z y : ℝ) : ℝ :=
  Q / (area b z y * Real.sqrt (g * area b z y / top_width b z y))

/-- The `while x < L` loop of `compute_gvf_profile(Q, b, z, n, S0, dx, L)`:
```
while x < L:
    fr = Fr(Q, b, z, y)
    denom = 1 - fr**2
    if abs(denom) < 1e-6:
        break
    dydx = (S0 - Sf(Q, b, z, y, n)) / denom
    y += dydx * dx
    x += dx
    if y <= 0 or np.isnan(y):
        break
    x_vals.append(x)
    y_vals.append(y)
```
The returned list holds the samples appended by the loop (the initial sample
is prepended by `compute_gvf_profile` below). -/
noncomputable def gvf_loop (Q b z n S0 dx L : ℝ) : ℕ → ℝ → ℝ → List (ℝ × ℝ)
  | 0, _, _ => []
  | fuel + 1, x, y =>
    if x < L then
      let fr := Fr_trap Q b z y
      let denom := 1 - fr ^ 2
      if |denom| < 1e-6 then []
      else
        let dydx := (S0 - Sf_trap Q b z y n) / denom
        let y' := y + dydx * dx
        let x' := x + dx
        if y' ≤ 0 then []
        else (x', y') :: gvf_loop Q b z n S0 dx L fuel x' y'
    else []

/-- Source: `compute_gvf_profile(Q, b, z, n, S0, dx, L)` (sample list and
`y_crit`; the CSV export is presentation glue and is not modelled).
`y_start = y_crit * 1.01`, `x_vals = [0]`, `y_vals = [y_start]`. -/
noncomputable def compute_gvf_profile (Q b z n S0 dx L : ℝ) : List (ℝ × ℝ) × ℝ :=
  let y_crit := compute_critical_depth_trap Q b z
  let y_start := y_crit * 1.01
  (((0 : ℝ), y_start) :: gvf_loop Q b z n S0 dx L (Nat.ceil (L / dx) + 1) 0 y_start, y_crit)

/-! ## Rectangular fast path (second document of `src/unnamed/part_000`,
`weir_flow_interactive.ipynb`, `weir_gvf_corrected_upstream.ipynb`; these
three notebooks define textually identical `Sf` and `Fr`). -/

/-- Source: `def compute_critical_depth(Q, b): return (Q**2 / (g * b**2))**(1/3)`. -/
noncomputable def compute_critical_depth_rect (Q b : ℝ) : ℝ :=
  (Q ^ 2 / (g * b ^ 2)) ^ ((1 : ℝ) / 3)

/-- Source: `def Sf(y, Q, b, n)` with `A = b * y`, `R = y`:
`(n**2 * Q**2) / (A**2 * R**(4/3))`. -/
noncomputable def Sf_rect (y Q b n : ℝ) : ℝ :=
  n ^ 2 * Q ^ 2 / ((b * y) ^ 2 * y ^ ((4 : ℝ) / 3))

/-- Source: `def Fr(Q, b, y): return Q / (b * y * np.sqrt(g * y))`. -/
noncomputable def Fr_rect (Q b y : ℝ) : ℝ := Q / (b * y * Real.sqrt (g * y))

/-- Source: `manning_eq` inside `compute_normal_depth(Q, b, n, S0)` of the
backwater notebook:
```
if y <= 0:
    return 1e6
A = b * y
R = y
return (1/n) * A * R**(2/3) * np.sqrt(S0) - Q
``` -/
noncomputable def manning_eq (Q b n S0 y : ℝ) : ℝ :=
  if y ≤ 0 then 1e6 else (1 / n) * (b * y) * y ^ ((2 : ℝ) / 3) * Real.sqrt S0 - Q

/-- Source: `y_guess = y_crit * 1.5` with `y_crit = compute_critical_depth(Q, b)`
(backwater notebook). -/
noncomputable def backwater_normal_guess (Q b : ℝ) : ℝ :=
  compute_critical_depth_rect Q b * 1.5

/-- Modelled from the spec: `compute_normal_depth(Q, b, n, S0)` of the
backwater notebook returns `fsolve(manning_eq, y_guess)[0]`; `fsolve` is
external to the repository.  Spec §4.3 specifies the converged result as a
root of the Manning residual; we model it as a root chosen classically,
defaulting to the initial guess when none exists. -/
noncomputable def compute_normal_depth_backwater (Q b n S0 : ℝ) : ℝ :=
  if h : ∃ y : ℝ, manning_eq Q b n S0 y = 0 then h.choose
  else backwater_normal_guess Q b

/-- Source: the residual `func` of `compute_normal_depth` in
`weir_flow_interactive.ipynb`:
`lambda y: (1/n) * b * y**(5/3) * np.sqrt(S0) - Q` (no guard for `y ≤ 0`). -/
noncomputable def interactive_manning_func (Q b n S0 y : ℝ) : ℝ :=
  (1 / n) * b * y ^ ((5 : ℝ) / 3) * Real.sqrt S0 - Q

/-- Source: `y_guess = (Q**2 / (g * b**2))**(1/3) * 1.5`
(`weir_flow_interactive.ipynb`). -/
noncomputable def interactive_normal_guess (Q b : ℝ) : ℝ :=
  (Q ^ 2 / (g * b ^ 2)) ^ ((1 : ℝ) / 3) * 1.5

/-- Modelled from the spec: `compute_normal_depth` of
`weir_flow_interactive.ipynb` returns `fsolve(func, y_guess)[0]`; modelled
like `compute_normal_depth_backwater`. -/
noncomputable def compute_normal_depth_interactive (Q b n S0 : ℝ) : ℝ :=
  if h : ∃ y : ℝ, interactive_manning_func Q b n S0 y = 0 then h.choose
  else interactive_normal_guess Q b

/-! ## Backward integrator (`compute_gvf_backwater`, backwater notebook) -/

/-- The `while y > y_stop and x > -1000` loop of
`compute_gvf_backwater(Q, b, n, S0, y_end, y_stop, dx)`:
```
while y > y_stop and x > -1000:
    fr = Fr(Q, b, y)
    denom = 1 - fr**2
    if abs(denom) < 1e-6:
        break
    dydx = (S0 - Sf(y, Q, b, n)) / denom
    y -= dydx * dx
    x -= dx
    if y <= 0 or np.isnan(y):
        break
    x_vals.append(x)
    y_vals.append(y)
``` -/
noncomputable def back_loop (Q b n S0 y_stop dx : ℝ) : ℕ → ℝ → ℝ → List (ℝ × ℝ)
  | 0, _, _ => []
  | fuel + 1, x, y =>
    if y > y_stop ∧ x > -1000 then
      let fr := Fr_rect Q b y
      let denom := 1 - fr ^ 2
      if |denom| < 1e-6 then []
      else
        let dydx := (S0 - Sf_rect y Q b n) / denom
        let y' := y - dydx * dx
        let x' := x - dx
        if y' ≤ 0 then []
        else (x', y') :: back_loop Q b n S0 y_stop dx fuel x' y'
    else []

/-- Source: `compute_gvf_backwater(Q, b, n, S0, y_end, y_stop, dx)`:
`x_vals = [0]`, `y_vals = [y_end]`, then the loop, then
`return x_vals[::-1], y_vals[::-1]`. -/
noncomputable def compute_gvf_backwater (Q b n S0 y_end y_stop dx : ℝ) : List (ℝ × ℝ) :=
  (((0 : ℝ), y_end) :: back_loop Q b n S0 y_stop dx (Nat.ceil (1000 / dx) + 1) 0 y_end).reverse

/-- Source: the computation performed by `plot_smooth_backwater(Q, b, n, S0, dx, L)`
before plotting:
```
y_crit = compute_critical_depth(Q, b)
y_normal = compute_normal_depth(Q, b, n, S0)
x_vals, y_vals = compute_gvf_backwater(Q, b, n, S0, y_end=y_normal, y_stop=y_crit, dx=dx)
```
Note that the caller-supplied reach length `L` is accepted but never passed on. -/
noncomputable def plot_smooth_backwater_samples (Q b n S0 dx L : ℝ) : List (ℝ × ℝ) :=
  compute_gvf_backwater Q b n S0
    (compute_normal_depth_backwater Q b n S0) (compute_critical_depth_rect Q b) dx

/-! ## Forward loop of `plot_profile` (`weir_flow_interactive.ipynb`) -/

/-- The `while x < L` loop inside `plot_profile(Q, b, n, S0, L, dx, ...)`:
```
while x < L:
    fr = Fr(Q, b, y)
    denom = 1 - fr**2
    if abs(denom) < 1e-6:
        break
    dy_dx = (S0 - Sf(y, Q, b, n)) / denom
    y += dy_dx * dx
    x += dx
    x_vals.append(x)
    y_vals.append(y)
```
Unlike the other three integrator loops, there is no `y <= 0 or np.isnan(y)`
check: the sample is appended unconditionally. -/
noncomputable def plot_loop (Q b n S0 dx L : ℝ) : ℕ → ℝ → ℝ → List (ℝ × ℝ)
  | 0, _, _ => []
  | fuel + 1, x, y =>
    if x < L then
      let fr := Fr_rect Q b y
      let denom := 1 - fr ^ 2
      if |denom| < 1e-6 then []
      else
        let dydx := (S0 - Sf_rect y Q b n) / denom
        let y' := y + dydx * dx
        let x' := x + dx
        (x', y') :: plot_loop Q b n S0 dx L fuel x' y'
    else []

/-- Source: the sample sequence built by `plot_profile(Q, b, n, S0, L, dx, ...)`:
`y_start = y_crit * 1.05`, `x_vals = [0]`, `y_vals = [y_start]`, then the loop. -/
noncomputable def plot_profile_samples (Q b n S0 L dx : ℝ) : List (ℝ × ℝ) :=
  let y_start := compute_critical_depth_rect Q b * 1.05
  ((0 : ℝ), y_start) :: plot_loop Q b n S0 dx L (Nat.ceil (L / dx) + 1) 0 y_start

/-! ## Clamping forward integrator (`compute_backwater_from_weir`,
`weir_gvf_corrected_upstream.ipynb`) -/

/-- Source: the denominator handling of `compute_backwater_from_weir`:
```
if abs(denom) < 1e-6:
    denom = 1e-6
```
(the clamped value is `1e-6` regardless of the sign of `denom`). -/
noncomputable def clamp_denom (denom : ℝ) : ℝ :=
  if |denom| < 1e-6 then 1e-6 else denom

/-- The `while x < L` loop of `compute_backwater_from_weir(Q, b, n, S0, dx, L)`:
```
while x < L:
    fr = Fr(Q, b, y)
    denom = 1 - fr**2
    if abs(denom) < 1e-6:
        denom = 1e-6
    dydx = (S0 - Sf(y, Q, b, n)) / denom
    y += dydx * dx
    x += dx
    if y <= 0 or np.isnan(y):
        break
    x_vals.append(x)
    y_vals.append(y)
    fr_vals.append(fr)
```
The result pairs the appended `(x, y)` samples with the appended `fr` values. -/
noncomputable def weir_loop (Q b n S0 dx L : ℝ) : ℕ → ℝ → ℝ → List (ℝ × ℝ) × List ℝ
  | 0, _, _ => ([], [])
  | fuel + 1, x, y =>
    if x < L then
      let fr := Fr_rect Q b y
      let denom := clamp_denom (1 - fr ^ 2)
      let dydx := (S0 - Sf_rect y Q b n) / denom
      let y' := y + dydx * dx
      let x' := x + dx
      if y' ≤ 0 then ([], [])
      else
        let rest := weir_loop Q b n S0 dx L fuel x' y'
        ((x', y') :: rest.1, fr :: rest.2)
    else ([], [])

/-- Source: `compute_backwater_from_weir(Q, b, n, S0, dx, L)`:
`y_start = y_crit * 1.01`, initial lists `[0]`, `[y_start]`, `fr_vals = []`;
returns `x_vals, y_vals, y_crit, fr_vals` (debug `print` calls not modelled). -/
noncomputable def compute_backwater_from_weir (Q b n S0 dx L : ℝ) :
    List (ℝ × ℝ) × ℝ × List ℝ :=
  let y_crit := compute_critical_depth_rect Q b
  let y_start := y_crit * 1.01
  let r := weir_loop Q b n S0 dx L (Nat.ceil (L / dx) + 1) 0 y_start
  (((0 : ℝ), y_start) :: r.1, y_crit, r.2)

/-! ## General helper lemmas -/

lemma g_pos : (0 : ℝ) < g := by norm_num [g]

lemma g_nonneg : (0 : ℝ) ≤ g := le_of_lt g_pos

lemma cube_rpow_third {a : ℝ} (ha : 0 ≤ a) : (a ^ 3 : ℝ) ^ ((1 : ℝ) / 3) = a := by
  rw [show (a ^ 3 : ℝ) = a ^ ((3 : ℕ) : ℝ) from (Real.rpow_natCast a 3).symm,
    ← Real.rpow_mul ha]
  norm_num

lemma rpow_third_cube {c : ℝ} (hc : 0 ≤ c) : (c ^ ((1 : ℝ) / 3)) ^ 3 = c := by
  rw [show (c ^ ((1 : ℝ) / 3)) ^ 3 = (c ^ ((1 : ℝ) / 3)) ^ ((3 : ℕ) : ℝ) from
    (Real.rpow_natCast _ 3).symm, ← Real.rpow_mul hc]
  norm_num

lemma le_rpow_third {a c : ℝ} (ha : 0 ≤ a) (h : a ^ 3 ≤ c) : a ≤ c ^ ((1 : ℝ) / 3) := by
  calc a = (a ^ 3 : ℝ) ^ ((1 : ℝ) / 3) := (cube_rpow_third ha).symm
    _ ≤ c ^ ((1 : ℝ) / 3) := Real.rpow_le_rpow (by positivity) h (by norm_num)

lemma lt_rpow_third {a c : ℝ} (ha : 0 ≤ a) (h : a ^ 3 < c) : a < c ^ ((1 : ℝ) / 3) := by
  calc a = (a ^ 3 : ℝ) ^ ((1 : ℝ) / 3) := (cube_rpow_third ha).symm
    _ < c ^ ((1 : ℝ) / 3) := Real.rpow_lt_rpow (by positivity) h (by norm_num)

lemma rpow_third_le {a c : ℝ} (ha : 0 ≤ a) (hc : 0 ≤ c) (h : c ≤ a ^ 3) :
    c ^ ((1 : ℝ) / 3) ≤ a := by
  calc c ^ ((1 : ℝ) / 3) ≤ (a ^ 3 : ℝ) ^ ((1 : ℝ) / 3) :=
        Real.rpow_le_rpow hc h (by norm_num)
    _ = a := cube_rpow_third ha

lemma rpow_43_le_self {y : ℝ} (h0 : 0 < y) (h1 : y ≤ 1) : y ^ ((4 : ℝ) / 3) ≤ y := by
  simpa [Real.rpow_one] using
    Real.rpow_le_rpow_of_exponent_ge h0 h1 (by norm_num : (1 : ℝ) ≤ 4 / 3)

lemma sq_le_rpow_43 {y : ℝ} (h0 : 0 < y) (h1 : y ≤ 1) : y ^ 2 ≤ y ^ ((4 : ℝ) / 3) := by
  have h := Real.rpow_le_rpow_of_exponent_ge h0 h1 (by norm_num : (4 : ℝ) / 3 ≤ 2)
  rwa [show (2 : ℝ) = ((2 : ℕ) : ℝ) by norm_num, Real.rpow_natCast] at h

lemma self_le_rpow_43 {y : ℝ} (h1 : 1 ≤ y) : y ≤ y ^ ((4 : ℝ) / 3) := by
  simpa [Real.rpow_one] using
    Real.rpow_le_rpow_of_exponent_le h1 (by norm_num : (1 : ℝ) ≤ 4 / 3)

lemma rpow_43_le_sq {y : ℝ} (h1 : 1 ≤ y) : y ^ ((4 : ℝ) / 3) ≤ y ^ 2 := by
  have h := Real.rpow_le_rpow_of_exponent_le h1 (by norm_num : (4 : ℝ) / 3 ≤ 2)
  rwa [show (2 : ℝ) = ((2 : ℕ) : ℝ) by norm_num, Real.rpow_natCast] at h

/-- Squaring the rectangular Froude number eliminates the square root. -/
lemma Fr_rect_sq (Q b y : ℝ) (h : 0 ≤ g * y) :
    Fr_rect Q b y ^ 2 = Q ^ 2 / ((b * y) ^ 2 * (g * y)) := by
  unfold Fr_rect
  rw [div_pow, mul_pow, Real.sq_sqrt h]

/-- At `z = 0` the trapezoidal Froude number reduces to the rectangular one. -/
lemma Fr_trap_z0 (Q b y : ℝ) (hb : b ≠ 0) : Fr_trap Q b 0 y = Fr_rect Q b y := by
  unfold Fr_trap Fr_rect area top_width
  have harea : b * y + 0 * y ^ 2 = b * y := by ring
  have htw : b + 2 * 0 * y = b := by ring
  rw [harea, htw]
  have harg : g * (b * y) / b = g * y := by
    field_simp
    ring
  rw [harg]

/-- The cube of the rectangular closed-form critical depth. -/
lemma crit_rect_cube (Q b : ℝ) :
    compute_critical_depth_rect Q b ^ 3 = Q ^ 2 / (g * b ^ 2) := by
  unfold compute_critical_depth_rect
  exact rpow_third_cube (div_nonneg (by positivity) (mul_nonneg g_nonneg (by positivity)))

lemma crit_rect_pos {Q b : ℝ} (hQ : 0 < Q) (hb : 0 < b) :
    0 < compute_critical_depth_rect Q b := by
  unfold compute_critical_depth_rect
  have : (0 : ℝ) < Q ^ 2 / (g * b ^ 2) := by
    apply div_pos (by positivity)
    have := g_pos
    positivity
  exact Real.rpow_pos_of_pos this _

/-- The residual of the general critical-depth equation at `z = 0`. -/
lemma crit_residual_z0 (Q b y : ℝ) :
    crit_residual Q b 0 y = Q ^ 2 * b - g * (b * y) ^ 3 := by
  unfold crit_residual top_width area
  ring

/-- For positive data and `z = 0`, the general critical-depth equation has the
rectangular closed form as its unique positive root. -/
lemma crit_residual_z0_iff {Q b y : ℝ} (hQ : 0 < Q) (hb : 0 < b) (hy : 0 < y) :
    crit_residual Q b 0 y = 0 ↔ y = compute_critical_depth_rect Q b := by
  rw [crit_residual_z0]
  constructor
  · intro h
    have hy3 : y ^ 3 = Q ^ 2 / (g * b ^ 2) := by
      have hg := g_pos
      field_simp
      nlinarith [h]
    have := cube_rpow_third (le_of_lt hy)
    rw [← this, hy3]
    rfl
  · intro h
    have hy3 : y ^ 3 = Q ^ 2 / (g * b ^ 2) := by rw [h]; exact crit_rect_cube Q b
    have hg := g_pos
    have hgb : g * b ^ 2 ≠ 0 := by positivity
    have : g * (b * y) ^ 3 = g * b ^ 3 * (Q ^ 2 / (g * b ^ 2)) := by
      rw [mul_pow]; rw [mul_assoc]; rw [hy3]
    rw [this]
    field_simp
    ring

/-- The spec-modelled trapezoidal solver agrees with the rectangular closed
form at `z = 0`. -/
lemma crit_trap_z0 {Q b : ℝ} (hQ : 0 < Q) (hb : 0 < b) :
    compute_critical_depth_trap Q b 0 = compute_critical_depth_rect Q b := by
  unfold compute_critical_depth_trap
  have hex : ∃ y : ℝ, 0 < y ∧ crit_residual Q b 0 y = 0 :=
    ⟨compute_critical_depth_rect Q b, crit_rect_pos hQ hb,
      (crit_residual_z0_iff hQ hb (crit_rect_pos hQ hb)).2 rfl⟩
  rw [dif_pos hex]
  obtain ⟨hpos, hroot⟩ := hex.choose_spec
  exact (crit_residual_z0_iff hQ hb hpos).1 hroot

/-- Squared Froude number at a depth that is a multiple `k` of the
rectangular critical depth. -/
lemma Fr_rect_sq_scaled {Q b k : ℝ} (hQ : 0 < Q) (hb : 0 < b) (hk : 0 < k) :
    Fr_rect Q b (compute_critical_depth_rect Q b * k) ^ 2 = 1 / k ^ 3 := by
  set c := compute_critical_depth_rect Q b with hc
  have hcpos : 0 < c := crit_rect_pos hQ hb
  have hy : 0 < c * k := mul_pos hcpos hk
  rw [Fr_rect_sq Q b (c * k) (mul_nonneg g_nonneg (le_of_lt hy))]
  have hden : (b * (c * k)) ^ 2 * (g * (c * k)) = g * b ^ 2 * (c ^ 3 * k ^ 3) := by ring
  rw [hden, hc, crit_rect_cube]
  have hg := g_pos
  have hQ' : Q ≠ 0 := ne_of_gt hQ
  have hb' : b ≠ 0 := ne_of_gt hb
  have hk' : k ≠ 0 := ne_of_gt hk
  field_simp

/-! ## Loop unfolding and structural lemmas -/

lemma gvf_loop_stop {Q b z n S0 dx L : ℝ} {fuel : ℕ} {x y : ℝ} (h : ¬ x < L) :
    gvf_loop Q b z n S0 dx L fuel x y = [] := by
  cases fuel <;> simp [gvf_loop, h]

lemma gvf_loop_break {Q b z n S0 dx L : ℝ} {fuel : ℕ} {x y : ℝ} (hx : x < L)
    (hd : |1 - Fr_trap Q b z y ^ 2| < 1e-6) :
    gvf_loop Q b z n S0 dx L (fuel + 1) x y = [] := by
  simp only [gvf_loop]
  rw [if_pos hx, if_pos hd]

lemma gvf_loop_step {Q b z n S0 dx L : ℝ} {fuel : ℕ} {x y : ℝ} (hx : x < L)
    (hd : ¬ |1 - Fr_trap Q b z y ^ 2| < 1e-6)
    (hy : ¬ y + (S0 - Sf_trap Q b z y n) / (1 - Fr_trap Q b z y ^ 2) * dx ≤ 0) :
    gvf_loop Q b z n S0 dx L (fuel + 1) x y =
      (x + dx, y + (S0 - Sf_trap Q b z y n) / (1 - Fr_trap Q b z y ^ 2) * dx) ::
        gvf_loop Q b z n S0 dx L fuel (x + dx)
          (y + (S0 - Sf_trap Q b z y n) / (1 - Fr_trap Q b z y ^ 2) * dx) := by
  simp only [gvf_loop]
  rw [if_pos hx, if_neg hd, if_neg hy]

lemma back_loop_stop {Q b n S0 y_stop dx : ℝ} {fuel : ℕ} {x y : ℝ}
    (h : ¬ (y > y_stop ∧ x > -1000)) :
    back_loop Q b n S0 y_stop dx fuel x y = [] := by
  cases fuel <;> simp only [back_loop] <;> first | rfl | rw [if_neg h]

lemma back_loop_break {Q b n S0 y_stop dx : ℝ} {fuel : ℕ} {x y : ℝ}
    (hg : y > y_stop ∧ x > -1000) (hd : |1 - Fr_rect Q b y ^ 2| < 1e-6) :
    back_loop Q b n S0 y_stop dx (fuel + 1) x y = [] := by
  simp only [back_loop]
  rw [if_pos hg, if_pos hd]

lemma back_loop_step {Q b n S0 y_stop dx : ℝ} {fuel : ℕ} {x y : ℝ}
    (hg : y > y_stop ∧ x > -1000) (hd : ¬ |1 - Fr_rect Q b y ^ 2| < 1e-6)
    (hy : ¬ y - (S0 - Sf_rect y Q b n) / (1 - Fr_rect Q b y ^ 2) * dx ≤ 0) :
    back_loop Q b n S0 y_stop dx (fuel + 1) x y =
      (x - dx, y - (S0 - Sf_rect y Q b n) / (1 - Fr_rect Q b y ^ 2) * dx) ::
        back_loop Q b n S0 y_stop dx fuel (x - dx)
          (y - (S0 - Sf_rect y Q b n) / (1 - Fr_rect Q b y ^ 2) * dx) := by
  simp only [back_loop]
  rw [if_pos hg, if_neg hd, if_neg hy]

lemma plot_loop_stop {Q b n S0 dx L : ℝ} {fuel : ℕ} {x y : ℝ} (h : ¬ x < L) :
    plot_loop Q b n S0 dx L fuel x y = [] := by
  cases fuel <;> simp [plot_loop, h]

lemma plot_loop_step {Q b n S0 dx L : ℝ} {fuel : ℕ} {x y : ℝ} (hx : x < L)
    (hd : ¬ |1 - Fr_rect Q b y ^ 2| < 1e-6) :
    plot_loop Q b n S0 dx L (fuel + 1) x y =
      (x + dx, y + (S0 - Sf_rect y Q b n) / (1 - Fr_rect Q b y ^ 2) * dx) ::
        plot_loop Q b n S0 dx L fuel (x + dx)
          (y + (S0 - Sf_rect y Q b n) / (1 - Fr_rect Q b y ^ 2) * dx) := by
  simp only [plot_loop]
  rw [if_pos hx, if_neg hd]

lemma weir_loop_stop {Q b n S0 dx L : ℝ} {fuel : ℕ} {x y : ℝ} (h : ¬ x < L) :
    weir_loop Q b n S0 dx L fuel x y = ([], []) := by
  cases fuel <;> simp [weir_loop, h]

lemma weir_loop_step {Q b n S0 dx L : ℝ} {fuel : ℕ} {x y : ℝ} (hx : x < L)
    (hy : ¬ y + (S0 - Sf_rect y Q b n) / clamp_denom (1 - Fr_rect Q b y ^ 2) * dx ≤ 0) :
    weir_loop Q b n S0 dx L (fuel + 1) x y =
      ((x + dx, y + (S0 - Sf_rect y Q b n) / clamp_denom (1 - Fr_rect Q b y ^ 2) * dx) ::
          (weir_loop Q b n S0 dx L fuel (x + dx)
            (y + (S0 - Sf_rect y Q b n) / clamp_denom (1 - Fr_rect Q b y ^ 2) * dx)).1,
        Fr_rect Q b y ::
          (weir_loop Q b n S0 dx L fuel (x + dx)
            (y + (S0 - Sf_rect y Q b n) / clamp_denom (1 - Fr_rect Q b y ^ 2) * dx)).2) := by
  simp only [weir_loop]
  rw [if_pos hx, if_neg hy]

lemma gvf_loop_dead {Q b z n S0 dx L : ℝ} {fuel : ℕ} {x y : ℝ} (hx : x < L)
    (hd : ¬ |1 - Fr_trap Q b z y ^ 2| < 1e-6)
    (hy : y + (S0 - Sf_trap Q b z y n) / (1 - Fr_trap Q b z y ^ 2) * dx ≤ 0) :
    gvf_loop Q b z n S0 dx L (fuel + 1) x y = [] := by
  simp only [gvf_loop]
  rw [if_pos hx, if_neg hd, if_pos hy]

lemma back_loop_dead {Q b n S0 y_stop dx : ℝ} {fuel : ℕ} {x y : ℝ}
    (hg : y > y_stop ∧ x > -1000) (hd : ¬ |1 - Fr_rect Q b y ^ 2| < 1e-6)
    (hy : y - (S0 - Sf_rect y Q b n) / (1 - Fr_rect Q b y ^ 2) * dx ≤ 0) :
    back_loop Q b n S0 y_stop dx (fuel + 1) x y = [] := by
  simp only [back_loop]
  rw [if_pos hg, if_neg hd, if_pos hy]

lemma weir_loop_dead {Q b n S0 dx L : ℝ} {fuel : ℕ} {x y : ℝ} (hx : x < L)
    (hy : y + (S0 - Sf_rect y Q b n) / clamp_denom (1 - Fr_rect Q b y ^ 2) * dx ≤ 0) :
    weir_loop Q b n S0 dx L (fuel + 1) x y = ([], []) := by
  simp only [weir_loop]
  rw [if_pos hx, if_pos hy]

/-- With enough fuel the embedded forward loop stabilizes: once the fuel
covers the number of `x < L` iterations, adding more fuel does not change the
result.  This is what justifies embedding the unbounded `while` loop by a
fuel-indexed recursion. -/
lemma gvf_loop_stable (Q b z n S0 dx L : ℝ) :
    ∀ (k : ℕ) (x y : ℝ) (m : ℕ), L ≤ x + k * dx →
      gvf_loop Q b z n S0 dx L (k + m) x y = gvf_loop Q b z n S0 dx L k x y := by
  intro k
  induction k with
  | zero =>
    intro x y m h
    have hx : ¬ x < L := not_lt.2 (by simpa using h)
    rw [gvf_loop_stop hx, gvf_loop_stop hx]
  | succ k ih =>
    intro x y m h
    have e1 : k + 1 + m = (k + m) + 1 := by omega
    by_cases hx : x < L
    · by_cases hd : |1 - Fr_trap Q b z y ^ 2| < 1e-6
      · rw [e1, gvf_loop_break hx hd, gvf_loop_break hx hd]
      · by_cases hy : y + (S0 - Sf_trap Q b z y n) / (1 - Fr_trap Q b z y ^ 2) * dx ≤ 0
        · rw [e1, gvf_loop_dead hx hd hy, gvf_loop_dead hx hd hy]
        · rw [e1, gvf_loop_step hx hd hy, gvf_loop_step hx hd hy]
          congr 1
          apply ih
          have hcast : ((k + 1 : ℕ) : ℝ) * dx = (k : ℝ) * dx + dx := by push_cast; ring
          rw [hcast] at h
          linarith
    · rw [gvf_loop_stop hx, gvf_loop_stop hx]

/-- Backward-loop analogue of `gvf_loop_stable`: once the fuel covers the
hard `x > -1000` guard, more fuel does not change the result. -/
lemma back_loop_stable (Q b n S0 y_stop dx : ℝ) :
    ∀ (k : ℕ) (x y : ℝ) (m : ℕ), x - k * dx ≤ -1000 →
      back_loop Q b n S0 y_stop dx (k + m) x y = back_loop Q b n S0 y_stop dx k x y := by
  intro k
  induction k with
  | zero =>
    intro x y m h
    have hg : ¬ (y > y_stop ∧ x > -1000) := by
      intro hc
      have : x ≤ -1000 := by simpa using h
      linarith [hc.2]
    rw [back_loop_stop hg, back_loop_stop hg]
  | succ k ih =>
    intro x y m h
    have e1 : k + 1 + m = (k + m) + 1 := by omega
    by_cases hg : y > y_stop ∧ x > -1000
    · by_cases hd : |1 - Fr_rect Q b y ^ 2| < 1e-6
      · rw [e1, back_loop_break hg hd, back_loop_break hg hd]
      · by_cases hy : y - (S0 - Sf_rect y Q b n) / (1 - Fr_rect Q b y ^ 2) * dx ≤ 0
        · rw [e1, back_loop_dead hg hd hy, back_loop_dead hg hd hy]
        · rw [e1, back_loop_step hg hd hy, back_loop_step hg hd hy]
          congr 1
          apply ih
          have hcast : ((k + 1 : ℕ) : ℝ) * dx = (k : ℝ) * dx + dx := by push_cast; ring
          rw [hcast] at h
          linarith
    · rw [back_loop_stop hg, back_loop_stop hg]

/-- The loop appends at most one sample per unit of fuel. -/
lemma gvf_loop_length_le (Q b z n S0 dx L : ℝ) :
    ∀ (fuel : ℕ) (x y : ℝ), (gvf_loop Q b z n S0 dx L fuel x y).length ≤ fuel := by
  intro fuel
  induction fuel with
  | zero => intro x y; simp [gvf_loop]
  | succ k ih =>
    intro x y
    by_cases hx : x < L
    · by_cases hd : |1 - Fr_trap Q b z y ^ 2| < 1e-6
      · rw [gvf_loop_break hx hd]; simp
      · by_cases hy : y + (S0 - Sf_trap Q b z y n) / (1 - Fr_trap Q b z y ^ 2) * dx ≤ 0
        · rw [gvf_loop_dead hx hd hy]; simp
        · rw [gvf_loop_step hx hd hy]
          simpa [List.length_cons, Nat.succ_le_succ_iff] using ih _ _
    · rw [gvf_loop_stop hx]; simp

lemma back_loop_length_le (Q b n S0 y_stop dx : ℝ) :
    ∀ (fuel : ℕ) (x y : ℝ), (back_loop Q b n S0 y_stop dx fuel x y).length ≤ fuel := by
  intro fuel
  induction fuel with
  | zero => intro x y; simp [back_loop]
  | succ k ih =>
    intro x y
    by_cases hg : y > y_stop ∧ x > -1000
    · by_cases hd : |1 - Fr_rect Q b y ^ 2| < 1e-6
      · rw [back_loop_break hg hd]; simp
      · by_cases hy : y - (S0 - Sf_rect y Q b n) / (1 - Fr_rect Q b y ^ 2) * dx ≤ 0
        · rw [back_loop_dead hg hd hy]; simp
        · rw [back_loop_step hg hd hy]
          simpa [List.length_cons, Nat.succ_le_succ_iff] using ih _ _
    · rw [back_loop_stop hg]; simp

/-- Every sample appended by the checking forward loop has positive depth:
the `if y <= 0 or np.isnan(y): break` test runs before the append. -/
lemma gvf_loop_mem_pos (Q b z n S0 dx L : ℝ) :
    ∀ (fuel : ℕ) (x y : ℝ), ∀ p ∈ gvf_loop Q b z n S0 dx L fuel x y, 0 < p.2 := by
  intro fuel
  induction fuel with
  | zero => intro x y p hp; simp [gvf_loop] at hp
  | succ k ih =>
    intro x y p hp
    by_cases hx : x < L
    · by_cases hd : |1 - Fr_trap Q b z y ^ 2| < 1e-6
      · rw [gvf_loop_break hx hd] at hp; simp at hp
      · by_cases hy : y + (S0 - Sf_trap Q b z y n) / (1 - Fr_trap Q b z y ^ 2) * dx ≤ 0
        · rw [gvf_loop_dead hx hd hy] at hp; simp at hp
        · rw [gvf_loop_step hx hd hy] at hp
          rcases List.mem_cons.1 hp with h | h
          · rw [h]; exact not_le.1 hy
          · exact ih _ _ _ h
    · rw [gvf_loop_stop hx] at hp; simp at hp

lemma back_loop_mem_pos (Q b n S0 y_stop dx : ℝ) :
    ∀ (fuel : ℕ) (x y : ℝ), ∀ p ∈ back_loop Q b n S0 y_stop dx fuel x y, 0 < p.2 := by
  intro fuel
  induction fuel with
  | zero => intro x y p hp; simp [back_loop] at hp
  | succ k ih =>
    intro x y p hp
    by_cases hg : y > y_stop ∧ x > -1000
    · by_cases hd : |1 - Fr_rect Q b y ^ 2| < 1e-6
      · rw [back_loop_break hg hd] at hp; simp at hp
      · by_cases hy : y - (S0 - Sf_rect y Q b n) / (1 - Fr_rect Q b y ^ 2) * dx ≤ 0
        · rw [back_loop_dead hg hd hy] at hp; simp at hp
        · rw [back_loop_step hg hd hy] at hp
          rcases List.mem_cons.1 hp with h | h
          · rw [h]; exact not_le.1 hy
          · exact ih _ _ _ h
    · rw [back_loop_stop hg] at hp; simp at hp

lemma weir_loop_mem_pos (Q b n S0 dx L : ℝ) :
    ∀ (fuel : ℕ) (x y : ℝ), ∀ p ∈ (weir_loop Q b n S0 dx L fuel x y).1, 0 < p.2 := by
  intro fuel
  induction fuel with
  | zero => intro x y p hp; simp [weir_loop] at hp
  | succ k ih =>
    intro x y p hp
    by_cases hx : x < L
    · by_cases hy : y + (S0 - Sf_rect y Q b n) / clamp_denom (1 - Fr_rect Q b y ^ 2) * dx ≤ 0
      · rw [weir_loop_dead hx hy] at hp; simp at hp
      · rw [weir_loop_step hx hy] at hp
        rcases List.mem_cons.1 hp with h | h
        · rw [h]; exact not_le.1 hy
        · exact ih _ _ _ h
    · rw [weir_loop_stop hx] at hp; simp at hp

/-- The forward loop appends strictly increasing `x` values. -/
lemma gvf_loop_chain (Q b z n S0 dx L : ℝ) (hdx : 0 < dx) :
    ∀ (fuel : ℕ) (x y : ℝ),
      List.Chain' (· < ·) (x :: (gvf_loop Q b z n S0 dx L fuel x y).map Prod.fst) := by
  intro fuel
  induction fuel with
  | zero => intro x y; simp [gvf_loop]
  | succ k ih =>
    intro x y
    by_cases hx : x < L
    · by_cases hd : |1 - Fr_trap Q b z y ^ 2| < 1e-6
      · rw [gvf_loop_break hx hd]; simp
      · by_cases hy : y + (S0 - Sf_trap Q b z y n) / (1 - Fr_trap Q b z y ^ 2) * dx ≤ 0
        · rw [gvf_loop_dead hx hd hy]; simp
        · rw [gvf_loop_step hx hd hy]
          rw [List.map_cons, List.chain'_cons]
          exact ⟨lt_add_of_pos_right x hdx, ih _ _⟩
    · rw [gvf_loop_stop hx]; simp

/-- The backward loop appends strictly decreasing `x` values. -/
lemma back_loop_chain (Q b n S0 y_stop dx : ℝ) (hdx : 0 < dx) :
    ∀ (fuel : ℕ) (x y : ℝ),
      List.Chain' (· > ·) (x :: (back_loop Q b n S0 y_stop dx fuel x y).map Prod.fst) := by
  intro fuel
  induction fuel with
  | zero => intro x y; simp [back_loop]
  | succ k ih =>
    intro x y
    by_cases hg : y > y_stop ∧ x > -1000
    · by_cases hd : |1 - Fr_rect Q b y ^ 2| < 1e-6
      · rw [back_loop_break hg hd]; simp
      · by_cases hy : y - (S0 - Sf_rect y Q b n) / (1 - Fr_rect Q b y ^ 2) * dx ≤ 0
        · rw [back_loop_dead hg hd hy]; simp
        · rw [back_loop_step hg hd hy]
          rw [List.map_cons, List.chain'_cons]
          exact ⟨by linarith, ih _ _⟩
    · rw [back_loop_stop hg]; simp

/-- Every sample appended by the backward loop lies strictly upstream
(`x` strictly below the starting station). -/
lemma back_loop_mem_lt (Q b n S0 y_stop dx : ℝ) (hdx : 0 < dx) :
    ∀ (fuel : ℕ) (x y : ℝ), ∀ p ∈ back_loop Q b n S0 y_stop dx fuel x y, p.1 < x := by
  intro fuel
  induction fuel with
  | zero => intro x y p hp; simp [back_loop] at hp
  | succ k ih =>
    intro x y p hp
    by_cases hg : y > y_stop ∧ x > -1000
    · by_cases hd : |1 - Fr_rect Q b y ^ 2| < 1e-6
      · rw [back_loop_break hg hd] at hp; simp at hp
      · by_cases hy : y - (S0 - Sf_rect y Q b n) / (1 - Fr_rect Q b y ^ 2) * dx ≤ 0
        · rw [back_loop_dead hg hd hy] at hp; simp at hp
        · rw [back_loop_step hg hd hy] at hp
          rcases List.mem_cons.1 hp with h | h
          · rw [h]; simp; linarith
          · have := ih _ _ _ h
            linarith
    · rw [back_loop_stop hg] at hp; simp at hp

/-! ## Concrete evaluation helpers -/

/-- At `(Q, b, y) = (3.132092, 1, 1)` the squared Froude number is just above
one, so the singularity test fires with a slightly negative denominator. -/
lemma denom313_neg :
    1 - Fr_rect 3.132092 1 1 ^ 2 < 0 ∧ |1 - Fr_rect 3.132092 1 1 ^ 2| < 1e-6 := by
  have h0 : (0 : ℝ) ≤ g * 1 := by norm_num [g]
  rw [Fr_rect_sq 3.132092 1 1 h0]
  constructor
  · norm_num [g]
  · rw [abs_lt]
    constructor <;> norm_num [g]

/-- Claim C4: for rectangular geometry the critical depth is the closed form
`(Q²/(g·b²))^(1/3)`; for `Q, b, y > 0` the general energy-minimization
residual `Q²·T(y) − g·A(y)³` at `z = 0` vanishes exactly at that closed form
(so the positive root of the general equation coincides with it), and the
spec-modelled trapezoidal solver therefore returns the closed form at `z = 0`. -/
theorem C4_critical_depth_closed_form :
    (∀ Q b : ℝ, compute_critical_depth_rect Q b = (Q ^ 2 / (g * b ^ 2)) ^ ((1 : ℝ) / 3)) ∧
    (∀ Q b y : ℝ, 0 < Q → 0 < b → 0 < y →
      (crit_residual Q b 0 y = 0 ↔ y = compute_critical_depth_rect Q b)) ∧
    (∀ Q b : ℝ, 0 < Q → 0 < b →
      compute_critical_depth_trap Q b 0 = compute_critical_depth_rect Q b) :=
  ⟨fun _ _ => rfl, fun _ _ _ hQ hb hy => crit_residual_z0_iff hQ hb hy,
    fun _ _ hQ hb => crit_trap_z0 hQ hb⟩

/-- Witness for C4 at `Q = 10`, `b = 3`, `y = 1`. -/
theorem C4_witness :
    (crit_residual 10 3 0 1 = 0 ↔ (1 : ℝ) = compute_critical_depth_rect 10 3) ∧
    compute_critical_depth_trap 10 3 0 = compute_critical_depth_rect 10 3 :=
  ⟨C4_critical_depth_closed_form.2.1 10 3 1 (by norm_num) (by norm_num) (by norm_num),
    C4_critical_depth_closed_form.2.2 10 3 (by norm_num) (by norm_num)⟩

/-- Claim C7 (amended): both normal-depth solvers use the initial guess
`1.5 ×` the rectangular closed-form critical depth; the backwater variant's
residual guards every non-positive trial depth by returning `1e6`, while the
interactive variant's residual has no guard and evaluates the Manning formula
at `y = 0`, yielding `−Q`. -/
theorem C7_normal_depth_guess_and_guard :
    (∀ Q b : ℝ, interactive_normal_guess Q b = compute_critical_depth_rect Q b * 1.5) ∧
    (∀ Q b : ℝ, backwater_normal_guess Q b = compute_critical_depth_rect Q b * 1.5) ∧
    (∀ Q b n S0 y : ℝ, y ≤ 0 → manning_eq Q b n S0 y = 1e6) ∧
    (∀ Q b n S0 : ℝ, interactive_manning_func Q b n S0 0 = -Q) := by
  refine ⟨fun Q b => rfl, fun Q b => rfl, fun Q b n S0 y hy => if_pos hy,
    fun Q b n S0 => ?_⟩
  unfold interactive_manning_func
  rw [Real.zero_rpow (by norm_num : (5 : ℝ) / 3 ≠ 0)]
  ring

/-- Witness for C7 at `y = 0`. -/
theorem C7_witness : manning_eq 10 3 (3 / 100) (1 / 1000) 0 = 1e6 :=
  C7_normal_depth_guess_and_guard.2.2.1 10 3 (3 / 100) (1 / 1000) 0 le_rfl

/-- Claim C7 counterexample: at the non-positive trial depth `0` the
interactive residual evaluates the Manning formula (yielding `−Q = −10`, a
negative number, not a large guard residual), while the backwater variant's
residual returns the guard value `1e6`: the claimed guard is absent from one
of the two cited implementations. -/
theorem C7_counterexample :
    interactive_manning_func 10 3 (3 / 100) (1 / 1000) 0 = -10 ∧
    ((-10 : ℝ) < 0 ∧ (-10 : ℝ) ≠ 1e6) ∧
    manning_eq 10 3 (3 / 100) (1 / 1000) 0 = 1e6 := by
  refine ⟨?_, ⟨by norm_num, by norm_num⟩, if_pos le_rfl⟩
  unfold interactive_manning_func
  rw [Real.zero_rpow (by norm_num : (5 : ℝ) / 3 ≠ 0)]
  ring

/-- Claim C9 counterexample: for `Q = 10`, `b = 3` the rectangular critical
depth is strictly greater than `1.032`, hence not within `0.01` of the
spec's stated `1.022`. -/
theorem C9_counterexample :
    ¬ |compute_critical_depth_rect 10 3 - 1.022| ≤ 0.01 := by
  have hrw : compute_critical_depth_rect 10 3 = ((10000 / 8829 : ℝ)) ^ ((1 : ℝ) / 3) := by
    unfold compute_critical_depth_rect
    norm_num [g]
  have h : (1.032 : ℝ) < compute_critical_depth_rect 10 3 := by
    rw [hrw]
    exact lt_rpow_third (by norm_num) (by norm_num)
  intro habs
  have h2 := (abs_le.1 habs).2
  linarith

/-- Claim C9 (amended): for `Q = 10`, `b = 3` the rectangular critical depth
is approximately `1.042 m` (within `0.01 m`). -/
theorem C9_critical_depth_value :
    |compute_critical_depth_rect 10 3 - 1.042| ≤ 0.01 := by
  have hrw : compute_critical_depth_rect 10 3 = ((10000 / 8829 : ℝ)) ^ ((1 : ℝ) / 3) := by
    unfold compute_critical_depth_rect
    norm_num [g]
  have hl : (1.0423 : ℝ) ≤ ((10000 / 8829 : ℝ)) ^ ((1 : ℝ) / 3) :=
    le_rpow_third (by norm_num) (by norm_num)
  have hu : ((10000 / 8829 : ℝ)) ^ ((1 : ℝ) / 3) ≤ 1.0425 :=
    rpow_third_le (by norm_num) (by norm_num) (by norm_num)
  rw [hrw, abs_le]
  constructor <;> linarith

/-- Claim C10: the backward-from-normal pipeline is independent of the
caller-supplied reach length: `plot_smooth_backwater` never passes `L` on to
`compute_gvf_backwater`, whose loop is bounded only by the stopping depth and
the hardcoded `x > -1000` guard. -/
theorem C10_backwater_independent_of_L (Q b n S0 dx L1 L2 : ℝ) :
    plot_smooth_backwater_samples Q b n S0 dx L1 =
      plot_smooth_backwater_samples Q b n S0 dx L2 := rfl

/-- Claim C2 counterexample: at `(Q, b, y) = (3.132092, 1, 1)` the
denominator `1 − Fr²` is negative with magnitude below `ε = 1e-6`, and the
clamp of `compute_backwater_from_weir` replaces it by `+1e-6` — an ε of the
*opposite* sign, refuting the claimed sign-preserving `±ε` clamp. -/
theorem C2_counterexample :
    1 - Fr_rect 3.132092 1 1 ^ 2 < 0 ∧
    |1 - Fr_rect 3.132092 1 1 ^ 2| < 1e-6 ∧
    clamp_denom (1 - Fr_rect 3.132092 1 1 ^ 2) = 1e-6 ∧
    0 < clamp_denom (1 - Fr_rect 3.132092 1 1 ^ 2) := by
  obtain ⟨h1, h2⟩ := denom313_neg
  refine ⟨h1, h2, ?_, ?_⟩
  · simp only [clamp_denom]
    rw [if_pos h2]
  · simp only [clamp_denom]
    rw [if_pos h2]
    norm_num

/-- Claim C2 (amended): in every variant the GVF division is never performed
with a divisor of magnitude below `ε = 1e-6`: the clamping variant's divisor
always has `|clamp_denom d| ≥ 1e-6` (though the clamped value is `+1e-6`
regardless of the sign of `d`), and the two aborting variants break out of
the loop — performing no division — whenever `|1 − Fr²| < 1e-6`. -/
theorem C2_singularity_policy :
    (∀ d : ℝ, 1e-6 ≤ |clamp_denom d|) ∧
    (∀ (Q b z n S0 dx L : ℝ) (fuel : ℕ) (x y : ℝ), x < L →
      |1 - Fr_trap Q b z y ^ 2| < 1e-6 →
      gvf_loop Q b z n S0 dx L (fuel + 1) x y = []) ∧
    (∀ (Q b n S0 y_stop dx : ℝ) (fuel : ℕ) (x y : ℝ), y > y_stop → x > -1000 →
      |1 - Fr_rect Q b y ^ 2| < 1e-6 →
      back_loop Q b n S0 y_stop dx (fuel + 1) x y = []) := by
  refine ⟨fun d => ?_, fun Q b z n S0 dx L fuel x y hx hd => gvf_loop_break hx hd,
    fun Q b n S0 y_stop dx fuel x y h1 h2 hd => back_loop_break ⟨h1, h2⟩ hd⟩
  by_cases h : |d| < 1e-6
  · simp only [clamp_denom]
    rw [if_pos h, abs_of_pos (by norm_num : (0 : ℝ) < 1e-6)]
  · simp only [clamp_denom]
    rw [if_neg h]
    exact not_lt.1 h

/-- Witness for C2 at the near-critical state `(Q, b, y) = (3.132092, 1, 1)`:
both aborting loops return the empty continuation there. -/
theorem C2_witness :
    gvf_loop 3.132092 1 0 1 1 1 10 1 0 1 = [] ∧
    back_loop 3.132092 1 1 1 0 1 1 0 1 = [] := by
  have hd : |1 - Fr_rect 3.132092 1 1 ^ 2| < 1e-6 := denom313_neg.2
  have hdt : |1 - Fr_trap 3.132092 1 0 1 ^ 2| < 1e-6 := by
    rw [Fr_trap_z0 3.132092 1 1 (by norm_num)]
    exact hd
  exact ⟨C2_singularity_policy.2.1 3.132092 1 0 1 1 1 10 0 0 1 (by norm_num) hdt,
    C2_singularity_policy.2.2 3.132092 1 1 1 0 1 0 0 1 (by norm_num) (by norm_num) hd⟩

/-- Run A for C6: with `y_end = 1 ≤ y_stop = 2` the backward integrator stops
before any step (termination cause: target condition already met). -/
lemma backwater_run_target :
    compute_gvf_backwater 3.132092 1 (3 / 100) (1 / 1000) 1 2 (1 / 4) = [(0, 1)] := by
  unfold compute_gvf_backwater
  rw [back_loop_stop (by norm_num : ¬ ((1 : ℝ) > 2 ∧ (0 : ℝ) > -1000))]
  simp

/-- Run B for C6: with `y_end = 1 > y_stop = 0` but `|1 − Fr²| < 1e-6` at the
start, the backward integrator stops via the singularity break. -/
lemma backwater_run_sing :
    compute_gvf_backwater 3.132092 1 (3 / 100) (1 / 1000) 1 0 (1 / 4) = [(0, 1)] := by
  unfold compute_gvf_backwater
  rw [back_loop_break ⟨by norm_num, by norm_num⟩ denom313_neg.2]
  simp

/-- Claim C6 counterexample: two runs of `compute_gvf_backwater` that stop
for different reasons — run A because the target condition `y > y_stop`
fails at once, run B (same `y_end`) because the singularity test fires —
return *identical* values, so the return value carries no termination
annotation distinguishing the cases. -/
theorem C6_counterexample :
    compute_gvf_backwater 3.132092 1 (3 / 100) (1 / 1000) 1 2 (1 / 4) = [(0, 1)] ∧
    compute_gvf_backwater 3.132092 1 (3 / 100) (1 / 1000) 1 0 (1 / 4) = [(0, 1)] ∧
    ¬ ((1 : ℝ) > 2) ∧
    ((1 : ℝ) > 0 ∧ (0 : ℝ) > -1000 ∧ |1 - Fr_rect 3.132092 1 1 ^ 2| < 1e-6) :=
  ⟨backwater_run_target, backwater_run_sing, by norm_num,
    by norm_num, by norm_num, denom313_neg.2⟩

/-- Claim C6 (amended): the integrators return only the raw sample lists,
with no termination-reason annotation; consequently a run stopped by the
target condition and a run stopped by the singularity break can return
exactly the same value. -/
theorem C6_no_termination_reason (Q b n S0 y_end dx y_stop y_stop' : ℝ)
    (h1 : ¬ y_end > y_stop) (h2 : y_end > y_stop')
    (h3 : |1 - Fr_rect Q b y_end ^ 2| < 1e-6) :
    compute_gvf_backwater Q b n S0 y_end y_stop dx =
      compute_gvf_backwater Q b n S0 y_end y_stop' dx := by
  unfold compute_gvf_backwater
  rw [back_loop_stop (fun hc => h1 hc.1)]
  rw [back_loop_break ⟨h2, by norm_num⟩ h3]

/-- Witness for C6 at the concrete near-critical state. -/
theorem C6_witness :
    compute_gvf_backwater 3.132092 1 (3 / 100) (1 / 1000) 1 2 (1 / 4) =
      compute_gvf_backwater 3.132092 1 (3 / 100) (1 / 1000) 1 0 (1 / 4) :=
  C6_no_termination_reason 3.132092 1 (3 / 100) (1 / 1000) 1 (1 / 4) 2 0
    (by norm_num) (by norm_num) denom313_neg.2

/-- Squared Froude number at the start depth `1.01 × y_crit` of
`compute_gvf_profile` for `Q = 10`, `b = 3`, `z = 0`. -/
lemma fr103_sq :
    Fr_trap 10 3 0 (compute_critical_depth_trap 10 3 0 * 1.01) ^ 2 = 1 / (1.01 : ℝ) ^ 3 := by
  rw [crit_trap_z0 (show (0 : ℝ) < 10 by norm_num) (show (0 : ℝ) < 3 by norm_num),
    Fr_trap_z0 10 3 (compute_critical_depth_rect 10 3 * 1.01) (by norm_num)]
  exact Fr_rect_sq_scaled (by norm_num) (by norm_num) (by norm_num)

/-- The singularity test does not fire at the start depth `1.01 × y_crit`. -/
lemma fr103_not_sing :
    ¬ |1 - Fr_trap 10 3 0 (compute_critical_depth_trap 10 3 0 * 1.01) ^ 2| < 1e-6 := by
  rw [fr103_sq, abs_of_pos (by norm_num : (0 : ℝ) < 1 - 1 / (1.01 : ℝ) ^ 3)]
  norm_num

lemma y0_103_pos : 0 < compute_critical_depth_trap 10 3 0 * 1.01 := by
  rw [crit_trap_z0 (show (0 : ℝ) < 10 by norm_num) (show (0 : ℝ) < 3 by norm_num)]
  have := crit_rect_pos (show (0 : ℝ) < 10 by norm_num) (show (0 : ℝ) < 3 by norm_num)
  nlinarith

/-- With `dx = 0` the forward loop of `compute_gvf_profile` never changes its
state: every iteration re-appends the same sample `(0, y_start)` and the
`x < L` stopping condition can never be met — one appended sample per unit
of fuel, however much fuel is supplied. -/
lemma gvf_loop_dx0 :
    ∀ k : ℕ, gvf_loop 10 3 0 (3 / 100) (1 / 1000) 0 100 k 0
        (compute_critical_depth_trap 10 3 0 * 1.01) =
      List.replicate k ((0 : ℝ), compute_critical_depth_trap 10 3 0 * 1.01) := by
  intro k
  induction k with
  | zero => simp [gvf_loop]
  | succ m ih =>
    have hy : ¬ compute_critical_depth_trap 10 3 0 * 1.01 +
        (1 / 1000 - Sf_trap 10 3 0 (compute_critical_depth_trap 10 3 0 * 1.01) (3 / 100)) /
          (1 - Fr_trap 10 3 0 (compute_critical_depth_trap 10 3 0 * 1.01) ^ 2) * 0 ≤ 0 := by
      rw [mul_zero, add_zero]
      exact not_le.2 y0_103_pos
    rw [gvf_loop_step (by norm_num : (0 : ℝ) < 100) fr103_not_sing hy]
    simp only [mul_zero, add_zero]
    rw [ih, List.replicate_succ]

/-- Claim C5 (amended): the code performs no static-parameter validation and
defines no `InvalidParameterError`; with the invalid step `dx = 0 ≤ 0` the
forward integrator happily takes an integration step on every iteration,
appending one (unchanged) sample per unit of fuel — the `while x < L` loop
can never terminate on its own, rather than failing before integration. -/
theorem C5_no_parameter_validation :
    ∀ k : ℕ, gvf_loop 10 3 0 (3 / 100) (1 / 1000) 0 100 k 0
        (compute_critical_depth_trap 10 3 0 * 1.01) =
      List.replicate k ((0 : ℝ), compute_critical_depth_trap 10 3 0 * 1.01) :=
  gvf_loop_dx0

/-- Claim C5 counterexample: with `dx = 0` (an invalid static parameter, so
by the claim no integration step should be taken and no partial profile
returned) the loop performs three iterations and appends three samples,
raising nothing. -/
theorem C5_counterexample :
    ((0 : ℝ) ≤ 0) ∧
    gvf_loop 10 3 0 (3 / 100) (1 / 1000) 0 100 3 0
        (compute_critical_depth_trap 10 3 0 * 1.01) =
      List.replicate 3 ((0 : ℝ), compute_critical_depth_trap 10 3 0 * 1.01) ∧
    (List.replicate 3 ((0 : ℝ), compute_critical_depth_trap 10 3 0 * 1.01)).length = 3 :=
  ⟨le_rfl, gvf_loop_dx0 3, by simp⟩

/-! ## A concrete one-step backward run (`Q = b = 1`, `y_end = 4`) -/

lemma fr114_sq : Fr_rect 1 1 4 ^ 2 = 25 / 15696 := by
  rw [Fr_rect_sq 1 1 4 (by norm_num [g])]
  norm_num [g]

lemma fr114_not_sing : ¬ |1 - Fr_rect 1 1 4 ^ 2| < 1e-6 := by
  rw [fr114_sq, abs_of_pos (by norm_num : (0 : ℝ) < 1 - 25 / 15696)]
  norm_num

lemma sf114_bounds :
    0 < Sf_rect 4 1 1 (1 / 100) ∧ Sf_rect 4 1 1 (1 / 100) ≤ 1 / 640000 := by
  have h1 : (4 : ℝ) ≤ (4 : ℝ) ^ ((4 : ℝ) / 3) := self_le_rpow_43 (by norm_num)
  have hpos : (0 : ℝ) < (4 : ℝ) ^ ((4 : ℝ) / 3) := Real.rpow_pos_of_pos (by norm_num) _
  unfold Sf_rect
  constructor
  · positivity
  · have hden : (64 : ℝ) ≤ (1 * 4) ^ 2 * (4 : ℝ) ^ ((4 : ℝ) / 3) := by nlinarith
    calc (1 / 100 : ℝ) ^ 2 * 1 ^ 2 / ((1 * 4) ^ 2 * (4 : ℝ) ^ ((4 : ℝ) / 3))
        ≤ (1 / 100 : ℝ) ^ 2 * 1 ^ 2 / 64 :=
          div_le_div_of_nonneg_left (by norm_num) (by norm_num) hden
      _ ≤ 1 / 640000 := by norm_num

lemma back114_y1_bounds :
    0 < 4 - (1 / 1000 - Sf_rect 4 1 1 (1 / 100)) / (1 - Fr_rect 1 1 4 ^ 2) * (1 / 4) ∧
    4 - (1 / 1000 - Sf_rect 4 1 1 (1 / 100)) / (1 - Fr_rect 1 1 4 ^ 2) * (1 / 4) ≤
      19999 / 5000 := by
  obtain ⟨hs0, hsu⟩ := sf114_bounds
  have e : (1 : ℝ) - 25 / 15696 = 15671 / 15696 := by norm_num
  rw [fr114_sq, e]
  have hq_u : (1 / 1000 - Sf_rect 4 1 1 (1 / 100)) / ((15671 : ℝ) / 15696) ≤
      (1 / 1000) / ((15671 : ℝ) / 15696) := by
    gcongr
    linarith
  have hq_l : (639 / 640000) / ((15671 : ℝ) / 15696) ≤
      (1 / 1000 - Sf_rect 4 1 1 (1 / 100)) / ((15671 : ℝ) / 15696) := by
    gcongr
    linarith
  have hnum_u : (1 / 1000 : ℝ) / ((15671 : ℝ) / 15696) ≤ 10016 / 10000000 := by norm_num
  have hnum_l : (8 / 10000 : ℝ) ≤ (639 / 640000 : ℝ) / ((15671 : ℝ) / 15696) := by
    norm_num
  constructor <;> linarith

/-- The concrete backward loop run: one sample appended, then the target
depth `y_stop = 3.9998` is reached and the loop exits. -/
lemma back_loop_run :
    back_loop 1 1 (1 / 100) (1 / 1000) (19999 / 5000) (1 / 4)
        (Nat.ceil ((1000 : ℝ) / (1 / 4)) + 1) 0 4 =
      [(0 - 1 / 4,
        4 - (1 / 1000 - Sf_rect 4 1 1 (1 / 100)) / (1 - Fr_rect 1 1 4 ^ 2) * (1 / 4))] := by
  obtain ⟨hy1pos, hy1le⟩ := back114_y1_bounds
  rw [back_loop_step (⟨by norm_num, by norm_num⟩ : (4 : ℝ) > 19999 / 5000 ∧ (0 : ℝ) > -1000)
      fr114_not_sing (not_le.2 hy1pos)]
  rw [back_loop_stop (fun hc => absurd hc.1 (not_lt.2 hy1le))]

/-- The returned (reversed) backwater profile of the concrete run: it reads
`[(-1/4, y₁), (0, 4)]` — increasing in `x` but *ending*, not starting, at
`x = 0`. -/
lemma backwater_run_step :
    compute_gvf_backwater 1 1 (1 / 100) (1 / 1000) 4 (19999 / 5000) (1 / 4) =
      [(0 - 1 / 4,
        4 - (1 / 1000 - Sf_rect 4 1 1 (1 / 100)) / (1 - Fr_rect 1 1 4 ^ 2) * (1 / 4)),
       (0, 4)] := by
  unfold compute_gvf_backwater
  rw [back_loop_run]
  simp

/-- Claim C3 counterexample: the profile returned by the backward-from-normal
integrator at a concrete input does *not* start at `x = 0`: its first sample
sits at `x = -1/4` (and `x = 0` is its last sample). -/
theorem C3_counterexample :
    ((compute_gvf_backwater 1 1 (1 / 100) (1 / 1000) 4 (19999 / 5000) (1 / 4)).map
        Prod.fst).head? = some (0 - 1 / 4 : ℝ) ∧
    (0 - 1 / 4 : ℝ) ≠ 0 := by
  rw [backwater_run_step]
  exact ⟨rfl, by norm_num⟩

/-- Claim C3 (amended): for `dx > 0` both integrators return samples with
strictly increasing `x`; the forward profile starts at `x = 0`, while the
backward profile is reversed before being returned and *ends* at `x = 0`
(all its stations lie at `x ≤ 0`, the loop having marched `x` downward). -/
theorem C3_profile_ordering (Q b z n S0 dx L Q' b' n' S0' y_end y_stop : ℝ)
    (hdx : 0 < dx) :
    List.Chain' (· < ·) (((compute_gvf_profile Q b z n S0 dx L).1).map Prod.fst) ∧
    ((compute_gvf_profile Q b z n S0 dx L).1).head? =
      some ((0 : ℝ), compute_critical_depth_trap Q b z * 1.01) ∧
    List.Chain' (· < ·)
      ((compute_gvf_backwater Q' b' n' S0' y_end y_stop dx).map Prod.fst) ∧
    ((compute_gvf_backwater Q' b' n' S0' y_end y_stop dx).map Prod.fst).getLast? =
      some (0 : ℝ) ∧
    (∀ p ∈ compute_gvf_backwater Q' b' n' S0' y_end y_stop dx, p.1 ≤ 0) := by
  refine ⟨?_, ?_, ?_, ?_, ?_⟩
  · show List.Chain' (· < ·)
      ((((0 : ℝ), compute_critical_depth_trap Q b z * 1.01) ::
        gvf_loop Q b z n S0 dx L (Nat.ceil (L / dx) + 1) 0
          (compute_critical_depth_trap Q b z * 1.01)).map Prod.fst)
    rw [List.map_cons]
    exact gvf_loop_chain Q b z n S0 dx L hdx _ 0 _
  · rfl
  · unfold compute_gvf_backwater
    rw [List.map_reverse, List.chain'_reverse]
    exact back_loop_chain Q' b' n' S0' y_stop dx hdx _ 0 y_end
  · unfold compute_gvf_backwater
    rw [List.map_reverse, List.getLast?_reverse]
    rfl
  · intro p hp
    unfold compute_gvf_backwater at hp
    rw [List.mem_reverse] at hp
    rcases List.mem_cons.1 hp with h | h
    · rw [h]
    · exact le_of_lt (back_loop_mem_lt Q' b' n' S0' y_stop dx hdx _ 0 y_end p h)

/-- Witness for C3 at `dx = 1/4`. -/
theorem C3_witness :
    List.Chain' (· < ·) (((compute_gvf_profile 1 1 0 1 1 (1 / 4) 1).1).map Prod.fst) ∧
    List.Chain' (· < ·)
      ((compute_gvf_backwater 2 1 1 1 1 1 (1 / 4)).map Prod.fst) := by
  have h := C3_profile_ordering 1 1 0 1 1 (1 / 4) 1 2 1 1 1 1 1 (by norm_num)
  exact ⟨h.1, h.2.2.1⟩

/-! ## The unchecked `plot_profile` loop at `Q = 7, b = 3, n = 0.3` -/

lemma crit73_bounds :
    (0.82 : ℝ) ≤ compute_critical_depth_rect 7 3 ∧
      compute_critical_depth_rect 7 3 ≤ 0.822 := by
  have hrw : compute_critical_depth_rect 7 3 = ((4900 / 8829 : ℝ)) ^ ((1 : ℝ) / 3) := by
    unfold compute_critical_depth_rect
    norm_num [g]
  rw [hrw]
  exact ⟨le_rpow_third (by norm_num) (by norm_num),
    rpow_third_le (by norm_num) (by norm_num) (by norm_num)⟩

lemma fr73_sq :
    Fr_rect 7 3 (compute_critical_depth_rect 7 3 * 1.05) ^ 2 = 1 / (1.05 : ℝ) ^ 3 :=
  Fr_rect_sq_scaled (by norm_num) (by norm_num) (by norm_num)

lemma fr73_not_sing :
    ¬ |1 - Fr_rect 7 3 (compute_critical_depth_rect 7 3 * 1.05) ^ 2| < 1e-6 := by
  rw [fr73_sq, abs_of_pos (by norm_num : (0 : ℝ) < 1 - 1 / (1.05 : ℝ) ^ 3)]
  norm_num

/-- With `n = 0.3` the friction slope at the start depth dominates so badly
that a single Euler step of size `dx = 1/4` drives the depth negative. -/
lemma plot73_aux {y0 : ℝ} (h1 : (0.861 : ℝ) ≤ y0) (h2 : y0 ≤ 0.8631) :
    y0 + (1 / 1000 - Sf_rect y0 7 3 (3 / 10)) / ((1261 : ℝ) / 9261) * (1 / 4) ≤ 0 := by
  have hy0pos : 0 < y0 := by linarith
  have hy0le1 : y0 ≤ 1 := by linarith
  have h43 : y0 ^ ((4 : ℝ) / 3) ≤ y0 := rpow_43_le_self hy0pos hy0le1
  have h43pos : 0 < y0 ^ ((4 : ℝ) / 3) := Real.rpow_pos_of_pos hy0pos _
  have hSfval : Sf_rect y0 7 3 (3 / 10) =
      (441 / 100) / ((3 * y0) ^ 2 * y0 ^ ((4 : ℝ) / 3)) := by
    unfold Sf_rect
    norm_num
  have hdenle : (3 * y0) ^ 2 * y0 ^ ((4 : ℝ) / 3) ≤ 9 * (0.8631 : ℝ) ^ 3 := by
    have hstep : (3 * y0) ^ 2 * y0 ^ ((4 : ℝ) / 3) ≤ (3 * y0) ^ 2 * y0 :=
      mul_le_mul_of_nonneg_left h43 (by positivity)
    nlinarith
  have hdenpos : 0 < (3 * y0) ^ 2 * y0 ^ ((4 : ℝ) / 3) := by positivity
  have hSflb : (441 / 100 : ℝ) / (9 * (0.8631 : ℝ) ^ 3) ≤ Sf_rect y0 7 3 (3 / 10) := by
    rw [hSfval]
    exact div_le_div_of_nonneg_left (by norm_num) hdenpos hdenle
  have hSflb2 : (762 / 1000 : ℝ) ≤ Sf_rect y0 7 3 (3 / 10) :=
    le_trans (by norm_num) hSflb
  have hq : (1 / 1000 - Sf_rect y0 7 3 (3 / 10)) / ((1261 : ℝ) / 9261) ≤
      (1 / 1000 - (762 / 1000 : ℝ)) / ((1261 : ℝ) / 9261) := by
    gcongr
  have hnum : (1 / 1000 - (762 / 1000 : ℝ)) / ((1261 : ℝ) / 9261) ≤ -5.58 := by norm_num
  nlinarith

lemma plot73_step_nonpos :
    compute_critical_depth_rect 7 3 * 1.05 +
      (1 / 1000 - Sf_rect (compute_critical_depth_rect 7 3 * 1.05) 7 3 (3 / 10)) /
        (1 - Fr_rect 7 3 (compute_critical_depth_rect 7 3 * 1.05) ^ 2) * (1 / 4) ≤ 0 := by
  obtain ⟨hcl, hcu⟩ := crit73_bounds
  rw [fr73_sq, (by norm_num : (1 : ℝ) - 1 / (1.05 : ℝ) ^ 3 = 1261 / 9261)]
  exact plot73_aux (by nlinarith) (by nlinarith)

/-- Claim C1 counterexample: at `Q = 7, b = 3, n = 0.3, S0 = 0.001`
(`dx = 1/4`, `L = 60`) the `plot_profile` loop appends its first sample with
non-positive depth — the claimed post-step depth check is absent from this
integrator, so a sample with `y ≤ 0` *is* appended to the returned profile
(and the loop continues stepping past it). -/
theorem C1_counterexample :
    2 ≤ (plot_profile_samples 7 3 (3 / 10) (1 / 1000) 60 (1 / 4)).length ∧
    ((plot_profile_samples 7 3 (3 / 10) (1 / 1000) 60 (1 / 4)).map Prod.snd)[1]?.getD 1 ≤
      0 := by
  have hs : plot_profile_samples 7 3 (3 / 10) (1 / 1000) 60 (1 / 4) =
      ((0 : ℝ), compute_critical_depth_rect 7 3 * 1.05) ::
        plot_loop 7 3 (3 / 10) (1 / 1000) (1 / 4) 60 (Nat.ceil ((60 : ℝ) / (1 / 4)) + 1) 0
          (compute_critical_depth_rect 7 3 * 1.05) := rfl
  rw [hs, plot_loop_step (by norm_num : (0 : ℝ) < 60) fr73_not_sing]
  constructor
  · simp
  · simp only [List.map_cons, List.getElem?_cons_succ, List.getElem?_cons_zero,
      Option.getD_some]
    exact plot73_step_nonpos

/-- Claim C1 (amended): in the three integrators that do carry the source's
`if y <= 0 or np.isnan(y): break` test (`compute_gvf_profile`,
`compute_gvf_backwater`, `compute_backwater_from_weir`) the check runs after
every step and before the append, so no loop-appended sample ever has
non-positive depth; the `plot_profile` loop of the interactive notebook has
no such check (see the counterexample). -/
theorem C1_depth_check :
    (∀ (Q b z n S0 dx L : ℝ) (fuel : ℕ) (x y : ℝ),
      ∀ p ∈ gvf_loop Q b z n S0 dx L fuel x y, 0 < p.2) ∧
    (∀ (Q b n S0 y_stop dx : ℝ) (fuel : ℕ) (x y : ℝ),
      ∀ p ∈ back_loop Q b n S0 y_stop dx fuel x y, 0 < p.2) ∧
    (∀ (Q b n S0 dx L : ℝ) (fuel : ℕ) (x y : ℝ),
      ∀ p ∈ (weir_loop Q b n S0 dx L fuel x y).1, 0 < p.2) :=
  ⟨fun Q b z n S0 dx L => gvf_loop_mem_pos Q b z n S0 dx L,
    fun Q b n S0 y_stop dx => back_loop_mem_pos Q b n S0 y_stop dx,
    fun Q b n S0 dx L => weir_loop_mem_pos Q b n S0 dx L⟩

/-- The clamped denominator at the `y = 4` state equals the raw denominator
(no clamping occurs there). -/
lemma weir114_clamp :
    clamp_denom (1 - Fr_rect 1 1 4 ^ 2) = 15671 / 15696 := by
  simp only [clamp_denom]
  rw [if_neg fr114_not_sing, fr114_sq]
  norm_num

lemma weir114_y_pos :
    ¬ 4 + (1 / 1000 - Sf_rect 4 1 1 (1 / 100)) /
        clamp_denom (1 - Fr_rect 1 1 4 ^ 2) * (1 / 4) ≤ 0 := by
  obtain ⟨hs0, hsu⟩ := sf114_bounds
  rw [weir114_clamp]
  have hq : (0 : ℝ) ≤ (1 / 1000 - Sf_rect 4 1 1 (1 / 100)) / ((15671 : ℝ) / 15696) :=
    div_nonneg (by linarith) (by norm_num)
  intro hc
  nlinarith

/-- A one-step run of the clamping `compute_backwater_from_weir` loop. -/
lemma weir_run :
    weir_loop 1 1 (1 / 100) (1 / 1000) (1 / 4) 10 (0 + 1) 0 4 =
      ([(0 + 1 / 4,
          4 + (1 / 1000 - Sf_rect 4 1 1 (1 / 100)) /
            clamp_denom (1 - Fr_rect 1 1 4 ^ 2) * (1 / 4))],
        [Fr_rect 1 1 4]) := by
  rw [weir_loop_step (by norm_num : (0 : ℝ) < 10) weir114_y_pos]
  simp [weir_loop]

/-- Witness for C1: the three checking loops at three concrete appended
samples, each of which indeed has positive depth. -/
theorem C1_witness :
    0 < (((0 : ℝ), compute_critical_depth_trap 10 3 0 * 1.01) : ℝ × ℝ).2 ∧
    0 < (((0 - 1 / 4 : ℝ),
      4 - (1 / 1000 - Sf_rect 4 1 1 (1 / 100)) / (1 - Fr_rect 1 1 4 ^ 2) * (1 / 4)) :
        ℝ × ℝ).2 ∧
    0 < (((0 + 1 / 4 : ℝ),
      4 + (1 / 1000 - Sf_rect 4 1 1 (1 / 100)) /
        clamp_denom (1 - Fr_rect 1 1 4 ^ 2) * (1 / 4)) : ℝ × ℝ).2 :=
  ⟨C1_depth_check.1 10 3 0 (3 / 100) (1 / 1000) 0 100 3 0
      (compute_critical_depth_trap 10 3 0 * 1.01) _ (by rw [gvf_loop_dx0 3]; simp),
    C1_depth_check.2.1 1 1 (1 / 100) (1 / 1000) (19999 / 5000) (1 / 4)
      (Nat.ceil ((1000 : ℝ) / (1 / 4)) + 1) 0 4 _ (by rw [back_loop_run]; simp),
    C1_depth_check.2.2 1 1 (1 / 100) (1 / 1000) (1 / 4) 10 (0 + 1) 0 4 _
      (by rw [weir_run]; simp)⟩

/-! ## A concrete forward run of `compute_gvf_profile` (`Q = 10`, `b = 3`,
`z = 0`, `L = 0.1 < dx = 0.25`) -/

lemma area_z0 (b y : ℝ) : area b 0 y = b * y := by
  unfold area
  ring

lemma perimeter_z0 (b y : ℝ) : perimeter b 0 y = b + 2 * y := by
  unfold perimeter
  norm_num [Real.one_rpow]

lemma crit103_bounds :
    (1.0423 : ℝ) ≤ compute_critical_depth_rect 10 3 ∧
      compute_critical_depth_rect 10 3 ≤ 1.0425 := by
  have hrw : compute_critical_depth_rect 10 3 = ((10000 / 8829 : ℝ)) ^ ((1 : ℝ) / 3) := by
    unfold compute_critical_depth_rect
    norm_num [g]
  rw [hrw]
  exact ⟨le_rpow_third (by norm_num) (by norm_num),
    rpow_third_le (by norm_num) (by norm_num) (by norm_num)⟩

lemma y0_103_bounds :
    (1.0527 : ℝ) ≤ compute_critical_depth_trap 10 3 0 * 1.01 ∧
      compute_critical_depth_trap 10 3 0 * 1.01 ≤ 1.0530 := by
  rw [crit_trap_z0 (show (0 : ℝ) < 10 by norm_num) (show (0 : ℝ) < 3 by norm_num)]
  obtain ⟨h1, h2⟩ := crit103_bounds
  constructor <;> nlinarith

/-- Upper bound on the trapezoidal friction slope at the start depth, via the
exact hydraulic radius `R = 3y/(3+2y)` and `R^(4/3) ≥ R²` for `R ≤ 1`. -/
lemma sf103_bound :
    Sf_trap 10 3 0 (compute_critical_depth_trap 10 3 0 * 1.01) (3 / 100) ≤
      237 / 10000 := by
  obtain ⟨hyl, hyu⟩ := y0_103_bounds
  set y0 := compute_critical_depth_trap 10 3 0 * 1.01 with hy0
  have hy0pos : (0 : ℝ) < y0 := by linarith
  have hper : (0 : ℝ) < 3 + 2 * y0 := by linarith
  have hR : hydraulic_radius 3 0 y0 = 3 * y0 / (3 + 2 * y0) := by
    unfold hydraulic_radius
    rw [area_z0, perimeter_z0]
  have hRpos : (0 : ℝ) < 3 * y0 / (3 + 2 * y0) := div_pos (by linarith) hper
  have hRu : 3 * y0 / (3 + 2 * y0) ≤ 1 := by
    rw [div_le_one hper]
    linarith
  have hRl : (618 / 1000 : ℝ) ≤ 3 * y0 / (3 + 2 * y0) := by
    rw [le_div_iff hper]
    nlinarith
  have hR43 : (3 * y0 / (3 + 2 * y0)) ^ 2 ≤ (3 * y0 / (3 + 2 * y0)) ^ ((4 : ℝ) / 3) :=
    sq_le_rpow_43 hRpos hRu
  have hR2 : ((618 / 1000 : ℝ)) ^ 2 ≤ (3 * y0 / (3 + 2 * y0)) ^ 2 :=
    pow_le_pow_left (by norm_num) hRl 2
  have hA2 : ((31581 / 10000 : ℝ)) ^ 2 ≤ (3 * y0) ^ 2 :=
    pow_le_pow_left (by norm_num) (by linarith) 2
  have hval : Sf_trap 10 3 0 y0 (3 / 100) =
      (3 / 100) ^ 2 * 10 ^ 2 / ((3 * y0) ^ 2 * (3 * y0 / (3 + 2 * y0)) ^ ((4 : ℝ) / 3)) := by
    unfold Sf_trap
    rw [area_z0, hR]
  have hdenge : ((31581 / 10000 : ℝ)) ^ 2 * ((618 / 1000 : ℝ)) ^ 2 ≤
      (3 * y0) ^ 2 * (3 * y0 / (3 + 2 * y0)) ^ ((4 : ℝ) / 3) := by
    calc ((31581 / 10000 : ℝ)) ^ 2 * ((618 / 1000 : ℝ)) ^ 2
        ≤ (3 * y0) ^ 2 * (3 * y0 / (3 + 2 * y0)) ^ 2 := by
          apply mul_le_mul hA2 hR2 (by positivity) (by positivity)
      _ ≤ (3 * y0) ^ 2 * (3 * y0 / (3 + 2 * y0)) ^ ((4 : ℝ) / 3) :=
          mul_le_mul_of_nonneg_left hR43 (by positivity)
  have hdpos : (0 : ℝ) < ((31581 / 10000 : ℝ)) ^ 2 * ((618 / 1000 : ℝ)) ^ 2 := by norm_num
  rw [hval]
  calc (3 / 100 : ℝ) ^ 2 * 10 ^ 2 / ((3 * y0) ^ 2 * (3 * y0 / (3 + 2 * y0)) ^ ((4 : ℝ) / 3))
      ≤ (3 / 100 : ℝ) ^ 2 * 10 ^ 2 / (((31581 / 10000 : ℝ)) ^ 2 * ((618 / 1000 : ℝ)) ^ 2) :=
        div_le_div_of_nonneg_left (by norm_num) hdpos hdenge
    _ ≤ 237 / 10000 := by norm_num

/-- The first Euler step of the concrete forward run keeps the depth
positive. -/
lemma gvf103_y1_pos :
    ¬ compute_critical_depth_trap 10 3 0 * 1.01 +
        (1 / 1000 - Sf_trap 10 3 0 (compute_critical_depth_trap 10 3 0 * 1.01) (3 / 100)) /
          (1 - Fr_trap 10 3 0 (compute_critical_depth_trap 10 3 0 * 1.01) ^ 2) * (1 / 4) ≤
      0 := by
  obtain ⟨hyl, hyu⟩ := y0_103_bounds
  have hsfu := sf103_bound
  rw [fr103_sq, (by norm_num : (1 : ℝ) - 1 / (1.01 : ℝ) ^ 3 = 30301 / 1030301)]
  have hq : ((1 : ℝ) / 1000 - 237 / 10000) / ((30301 : ℝ) / 1030301) ≤
      (1 / 1000 - Sf_trap 10 3 0 (compute_critical_depth_trap 10 3 0 * 1.01) (3 / 100)) /
        ((30301 : ℝ) / 1030301) := by
    gcongr
  have hnum : (-(78 / 100) : ℝ) ≤ ((1 : ℝ) / 1000 - 237 / 10000) / ((30301 : ℝ) / 1030301) := by
    norm_num
  intro hc
  nlinarith

/-- The concrete forward run: one loop step, then `x = 1/4 ≥ L = 1/10` ends
the loop — one step even though `L/dx = 2/5 < 1`. -/
lemma gvf103_run :
    (compute_gvf_profile 10 3 0 (3 / 100) (1 / 1000) (1 / 4) (1 / 10)).1 =
      [((0 : ℝ), compute_critical_depth_trap 10 3 0 * 1.01),
       ((0 + 1 / 4 : ℝ),
        compute_critical_depth_trap 10 3 0 * 1.01 +
          (1 / 1000 - Sf_trap 10 3 0 (compute_critical_depth_trap 10 3 0 * 1.01) (3 / 100)) /
            (1 - Fr_trap 10 3 0 (compute_critical_depth_trap 10 3 0 * 1.01) ^ 2) * (1 / 4))] := by
  have hs : (compute_gvf_profile 10 3 0 (3 / 100) (1 / 1000) (1 / 4) (1 / 10)).1 =
      ((0 : ℝ), compute_critical_depth_trap 10 3 0 * 1.01) ::
        gvf_loop 10 3 0 (3 / 100) (1 / 1000) (1 / 4) (1 / 10)
          (Nat.ceil ((1 / 10 : ℝ) / (1 / 4)) + 1) 0
          (compute_critical_depth_trap 10 3 0 * 1.01) := rfl
  rw [hs, gvf_loop_step (by norm_num : (0 : ℝ) < 1 / 10) fr103_not_sing gvf103_y1_pos,
    gvf_loop_stop (by norm_num : ¬ (0 + 1 / 4 : ℝ) < 1 / 10)]

/-- Claim C8 counterexample: for `L = 1/10`, `dx = 1/4` (so `L/dx = 2/5`) the
forward loop executes one step — strictly more than the claimed bound of
`reach_length/dx` steps. -/
theorem C8_counterexample :
    (compute_gvf_profile 10 3 0 (3 / 100) (1 / 1000) (1 / 4) (1 / 10)).1.length = 2 ∧
    ¬ (((2 : ℝ) - 1) ≤ (1 / 10 : ℝ) / (1 / 4)) := by
  refine ⟨?_, by norm_num⟩
  rw [gvf103_run]
  rfl

/-- Claim C8 (amended): with `dx > 0` both integration loops terminate and
the sample counts are bounded — by `⌈L/dx⌉` forward steps and `⌈1000/dx⌉`
backward steps (the correct ceiling of the claimed `L/dx` and `1000/dx`) —
and past those bounds additional fuel leaves the loop output unchanged, so
no input produces an unbounded sequence. -/
theorem C8_iteration_bounds :
    (∀ (Q b z n S0 dx L : ℝ) (k : ℕ) (x y : ℝ) (m : ℕ), L ≤ x + k * dx →
      gvf_loop Q b z n S0 dx L (k + m) x y = gvf_loop Q b z n S0 dx L k x y) ∧
    (∀ (Q b n S0 y_stop dx : ℝ) (k : ℕ) (x y : ℝ) (m : ℕ), x - k * dx ≤ -1000 →
      back_loop Q b n S0 y_stop dx (k + m) x y = back_loop Q b n S0 y_stop dx k x y) ∧
    (∀ Q b z n S0 dx L : ℝ, 0 < dx →
      (compute_gvf_profile Q b z n S0 dx L).1.length ≤ Nat.ceil (L / dx) + 1) ∧
    (∀ Q b n S0 y_end y_stop dx : ℝ, 0 < dx →
      (compute_gvf_backwater Q b n S0 y_end y_stop dx).length ≤
        Nat.ceil ((1000 : ℝ) / dx) + 1) := by
  refine ⟨fun Q b z n S0 dx L k x y m h => gvf_loop_stable Q b z n S0 dx L k x y m h,
    fun Q b n S0 y_stop dx k x y m h => back_loop_stable Q b n S0 y_stop dx k x y m h,
    ?_, ?_⟩
  · intro Q b z n S0 dx L hdx
    have hbound : L ≤ 0 + (Nat.ceil (L / dx) : ℝ) * dx := by
      have h1 : L / dx ≤ (Nat.ceil (L / dx) : ℝ) := Nat.le_ceil _
      have h2 : L / dx * dx = L := div_mul_cancel₀ L (ne_of_gt hdx)
      nlinarith [mul_le_mul_of_nonneg_right h1 (le_of_lt hdx)]
    have hstab := gvf_loop_stable Q b z n S0 dx L (Nat.ceil (L / dx)) 0
      (compute_critical_depth_trap Q b z * 1.01) 1 hbound
    have hs : (compute_gvf_profile Q b z n S0 dx L).1 =
        ((0 : ℝ), compute_critical_depth_trap Q b z * 1.01) ::
          gvf_loop Q b z n S0 dx L (Nat.ceil (L / dx) + 1) 0
            (compute_critical_depth_trap Q b z * 1.01) := rfl
    rw [hs]
    simp only [List.length_cons]
    rw [hstab]
    exact Nat.add_le_add_right
      (gvf_loop_length_le Q b z n S0 dx L (Nat.ceil (L / dx)) 0
        (compute_critical_depth_trap Q b z * 1.01)) 1
  · intro Q b n S0 y_end y_stop dx hdx
    have hbound : (0 : ℝ) - (Nat.ceil ((1000 : ℝ) / dx) : ℝ) * dx ≤ -1000 := by
      have h1 : (1000 : ℝ) / dx ≤ (Nat.ceil ((1000 : ℝ) / dx) : ℝ) := Nat.le_ceil _
      have h2 : (1000 : ℝ) / dx * dx = 1000 := div_mul_cancel₀ _ (ne_of_gt hdx)
      nlinarith [mul_le_mul_of_nonneg_right h1 (le_of_lt hdx)]
    have hstab := back_loop_stable Q b n S0 y_stop dx (Nat.ceil ((1000 : ℝ) / dx)) 0
      y_end 1 hbound
    unfold compute_gvf_backwater
    rw [List.length_reverse]
    simp only [List.length_cons]
    rw [hstab]
    exact Nat.add_le_add_right
      (back_loop_length_le Q b n S0 y_stop dx (Nat.ceil ((1000 : ℝ) / dx)) 0 y_end) 1

/-- Witness for C8 at concrete parameters. -/
theorem C8_witness :
    (compute_gvf_profile 1 1 0 1 1 (1 / 4) 1).1.length ≤ Nat.ceil ((1 : ℝ) / (1 / 4)) + 1 ∧
    (compute_gvf_backwater 1 1 1 1 1 1 (1 / 4)).length ≤
      Nat.ceil ((1000 : ℝ) / (1 / 4)) + 1 ∧
    gvf_loop 1 1 0 1 1 1 0 (0 + 1) 0 1 = gvf_loop 1 1 0 1 1 1 0 0 0 1 ∧
    back_loop 1 1 1 1 0 1 (1000 + 1) 0 1 = back_loop 1 1 1 1 0 1 1000 0 1 :=
  ⟨C8_iteration_bounds.2.2.1 1 1 0 1 1 (1 / 4) 1 (by norm_num),
    C8_iteration_bounds.2.2.2 1 1 1 1 1 1 (1 / 4) (by norm_num),
    C8_iteration_bounds.1 1 1 0 1 1 1 0 0 0 1 1 (by push_cast; norm_num),
    C8_iteration_bounds.2.1 1 1 1 1 0 1 1000 0 1 1 (by push_cast; norm_num)⟩

end WaterSurface
